import Mathlib

/-!
Verification of the tile/sprite compositing core of the
graphicsEnginePlatformio sketches (src/wip/oledMainDEMO.cpp,
src/unnamed/part_001, src/games/cuboRebotando.cpp).

Bytes are modelled as natural numbers; every C store into a `byte`
lvalue that can overflow is truncated with an explicit `% 256`.
Buffers (the 128-byte scan-line buffer, the 180-byte playfield) are
modelled as total functions from index to byte value; a C loop that
writes each cell of a window exactly once and reads only that same
cell becomes a pointwise functional update over the window.
-/

/-- Scan-line row buffer: index (column) to byte value. -/
abbrev Buf := Nat → Nat

/-- Output byte of one iteration of DrawShiftedChar
(src/wip/oledMainDEMO.cpp lines 430-435): the top source byte shifted
right by the vertical offset, ORed with the bottom source byte shifted
left by 8 - offset and truncated to 8 bits by the store into byte c2. -/
def shiftedByte (c c2 v : Nat) : Nat :=
  (c >>> v) ||| ((c2 <<< (8 - v)) % 256)

/-- Loop of DrawShiftedChar (src/wip/oledMainDEMO.cpp lines 427-437):
reads one byte from each source stream per iteration, advancing both
source cursors and emitting one destination byte, for a given number
of remaining iterations. -/
def drawShiftedCharAux (s1 s2 : Nat → Nat) (v : Nat) : Nat → Nat → Nat → List Nat
  | _, _, 0 => []
  | i1, i2, n + 1 =>
      shiftedByte (s1 i1) (s2 i2) v :: drawShiftedCharAux s1 s2 v (i1 + 1) (i2 + 1) n

/-- DrawShiftedChar (src/wip/oledMainDEMO.cpp lines 427-437): the list of
bytes written to the destination, given the two source byte streams, the
horizontal sub-tile offset bXOff and the vertical offset bYOff; the loop
runs for 8 - bXOff iterations. -/
def drawShiftedChar (s1 s2 : Nat → Nat) (bXOff v : Nat) : List Nat :=
  drawShiftedCharAux s1 s2 v 0 0 (8 - bXOff)

/-- Wrap step used for the horizontal tile cursor in DrawPlayfield
(src/wip/oledMainDEMO.cpp lines 590-591): subtract 18 once when the
cursor reaches 18. -/
def wrap18 (t : Nat) : Nat := if 18 ≤ t then t - 18 else t

/-- Wrap step used for the vertical tile row in DrawPlayfield
(src/wip/oledMainDEMO.cpp lines 580-582): subtract 10 once when the
row counter reaches 10. -/
def wrap10 (t : Nat) : Nat := if 10 ≤ t then t - 10 else t

/-- Horizontal tile cursor value used at column cell x of a row of
DrawPlayfield (src/wip/oledMainDEMO.cpp lines 578, 589-591, 603): the
cursor starts at bScrollX >> 3, is wrapped by the single conditional
subtraction at the top of each cell, and is incremented after each cell. -/
def txA (sx : Nat) : Nat → Nat
  | 0 => wrap18 (sx >>> 3)
  | x + 1 => wrap18 (txA sx x + 1)

/-- Vertical tile row value used at page p of DrawPlayfield
(src/wip/oledMainDEMO.cpp lines 573, 580-582, 651): the row starts at
bScrollY >> 3, is wrapped by the single conditional subtraction at the
top of each page, and is incremented at the end of each page. -/
def tyAt (sy : Nat) : Nat → Nat
  | 0 => wrap10 (sy >>> 3)
  | p + 1 => wrap10 (tyAt sy p + 1)

/-- Index into the 180-byte bPlayfield read for column cell x of page p
(src/wip/oledMainDEMO.cpp line 592: iOffset = tx + ty * 18). -/
def pfIdx (sx sy p x : Nat) : Nat := txA sx x + tyAt sy p * 18

/-- Second playfield index (next tile row) read in the shifted path
(src/wip/oledMainDEMO.cpp lines 593-595: iOffset2 = iOffset + 18,
wrapped past 180 by a single conditional subtraction). -/
def pfIdx2 (sx sy p x : Nat) : Nat :=
  if pfIdx sx sy p x + 18 ≥ 180 then pfIdx sx sy p x + 18 - 180
  else pfIdx sx sy p x + 18

/-- Horizontal sub-tile offset consumed by column cell x: bXOff =
bScrollX & 7 for the first cell, zeroed afterwards
(src/wip/oledMainDEMO.cpp lines 570, 601-602). -/
def cellXOff (sx x : Nat) : Nat := if x = 0 then sx % 8 else 0

/-- Bytes emitted for column cell x of a page by the vertically shifted
path of DrawPlayfield (src/wip/oledMainDEMO.cpp lines 589-604): the two
font source streams start at the glyphs of the two vertically adjacent
playfield tiles, offset by the cell bXOff. -/
def rowShiftCell (pf font : Nat → Nat) (sx sy p v x : Nat) : List Nat :=
  drawShiftedChar
    (fun z => font (pf (pfIdx sx sy p x) * 8 + cellXOff sx x + z))
    (fun z => font (pf (pfIdx2 sx sy p x) * 8 + cellXOff sx x + z))
    (cellXOff sx x) v

/-- Bytes written by the 16-cell column loop of the shifted path of
DrawPlayfield (src/wip/oledMainDEMO.cpp lines 589-604), in destination
order. -/
def rowShiftLoop (pf font : Nat → Nat) (sx sy p v : Nat) : List Nat :=
  ((List.range 16).map (rowShiftCell pf font sx sy p v)).flatten

/-- Bytes written by the live fallback after the 16-cell loop of the
shifted path (src/wip/oledMainDEMO.cpp lines 606-620): it runs exactly
when the destination cursor has not reached the end of the 128-byte
buffer, i.e. when bScrollX & 7 is nonzero, and then recomputes bXOff as
the remaining byte count and emits 8 - (8 - bXOff) = bXOff bytes from
the unoffset glyphs of the next tile column. -/
def rowShiftTail (pf font : Nat → Nat) (sx sy p v : Nat) : List Nat :=
  if sx % 8 = 0 then []
  else
    drawShiftedChar
      (fun z => font (pf (pfIdx sx sy p 16) * 8 + z))
      (fun z => font (pf (pfIdx2 sx sy p 16) * 8 + z))
      (8 - sx % 8) v

/-- Full 128-byte row produced by the shifted (bYOff nonzero) path of
DrawPlayfield for one page, before sprites are composited. -/
def rowShift (pf font : Nat → Nat) (sx sy p v : Nat) : List Nat :=
  rowShiftLoop pf font sx sy p v ++ rowShiftTail pf font sx sy p v

/-- Bytes emitted for column cell x by the direct byte-copy path of
DrawPlayfield (src/wip/oledMainDEMO.cpp lines 623-633): memcpy of
8 - bXOff glyph bytes of the single playfield tile. -/
def rowDirectCell (pf font : Nat → Nat) (sx sy p x : Nat) : List Nat :=
  (List.range (8 - cellXOff sx x)).map
    (fun z => font (pf (pfIdx sx sy p x) * 8 + cellXOff sx x + z))

/-- Bytes written by the 16-cell loop of the direct path of
DrawPlayfield (src/wip/oledMainDEMO.cpp lines 623-633). -/
def rowDirectLoop (pf font : Nat → Nat) (sx sy p : Nat) : List Nat :=
  ((List.range 16).map (rowDirectCell pf font sx sy p)).flatten

/-- Bytes written by the live fallback of the direct path
(src/wip/oledMainDEMO.cpp lines 635-644): memcpy of the remaining
bXOff = bScrollX & 7 bytes from the unoffset glyph of the next tile. -/
def rowDirectTail (pf font : Nat → Nat) (sx sy p : Nat) : List Nat :=
  if sx % 8 = 0 then []
  else (List.range (sx % 8)).map (fun z => font (pf (pfIdx sx sy p 16) * 8 + z))

/-- Full 128-byte row produced by the direct (bYOff = 0) path of
DrawPlayfield for one page, before sprites are composited. -/
def rowDirect (pf font : Nat → Nat) (sx sy p : Nat) : List Nat :=
  rowDirectLoop pf font sx sy p ++ rowDirectTail pf font sx sy p

/-- Sprite instance record (src/wip/oledMainDEMO.cpp lines 100-105):
x position, y position, and the type byte whose high bit selects a
16x16 sprite and whose low 7 bits select the glyph index. -/
structure GFXObject where
  x : Nat
  y : Nat
  bType : Nat

/-- Sprite pixel height decoded from the type byte
(src/wip/oledMainDEMO.cpp line 448: bSize = (bSprite & 0x80) ? 16 : 8). -/
def spriteSize (bType : Nat) : Nat := if bType &&& 128 ≠ 0 then 16 else 8

/-- Mask-and-pattern transparency composite applied to one destination
byte (src/wip/oledMainDEMO.cpp lines 554-556: cOld &= mask; cOld |= cNew). -/
def compositeByte (dest mask pat : Nat) : Nat := (dest &&& mask) ||| pat

/-- Pointwise effect of one blit loop of DrawSprites: each of the w
iterations reads exactly the destination byte it writes, so the loop
is a pointwise composite over the window starting at column x0, with
mp k the (mask, pattern) pair computed for iteration k. -/
def blit (buf : Buf) (x0 w : Nat) (mp : Nat → Nat × Nat) : Buf :=
  fun j =>
    if x0 ≤ j ∧ j < x0 + w then
      compositeByte (buf j) (mp (j - x0)).1 (mp (j - x0)).2
    else buf j

/-- Effective blit width of a visible sprite (src/wip/oledMainDEMO.cpp
lines 464-466 and 535-537): the sprite width, clipped to 128 - x when
the sprite overhangs the right edge. -/
def spriteWidthEff (o : GFXObject) : Nat :=
  if 128 - o.x < spriteSize o.bType then 128 - o.x else spriteSize o.bType

/-- Mask and pattern bytes computed for iteration k of the blit loops of
DrawSprites (src/wip/oledMainDEMO.cpp lines 459-559). For a 16x16 sprite
the glyph block is 64 bytes at index*64 (mask halves at 0 and 16,
pattern halves at 32 and 48), advanced by 16 when only the bottom half
is drawn; the four cases follow the source: byte aligned, bottom half
only, top half only, and both halves straddling the page. For an 8x8
sprite the glyph block is 16 bytes at index*16 (mask at 0, pattern at
8), shifted up or down when the sprite is not byte aligned. Every store
into a byte that can carry bits past bit 7 is truncated with % 256. -/
def spriteMP (big small : Nat → Nat) (y : Nat) (o : GFXObject) (k : Nat) : Nat × Nat :=
  let bYOff := o.y % 8
  if o.bType &&& 128 ≠ 0 then
    let base := (o.bType &&& 127) * 64 + (if o.y + 8 ≤ y then 16 else 0)
    if bYOff = 0 then
      (big (base + k), big (base + 32 + k))
    else if o.y + 8 < y then
      ((big (base + k) >>> (8 - bYOff)) ||| ((255 <<< bYOff) % 256),
       big (base + 32 + k) >>> (8 - bYOff))
    else if o.y > y then
      (((big (base + k) <<< bYOff) % 256) ||| (255 >>> (8 - bYOff)),
       (big (base + 32 + k) <<< bYOff) % 256)
    else
      ((big (base + k) >>> (8 - bYOff)) ||| ((big (base + 16 + k) <<< bYOff) % 256),
       (big (base + 32 + k) >>> (8 - bYOff)) ||| ((big (base + 48 + k) <<< bYOff) % 256))
  else
    let base := (o.bType &&& 127) * 16
    let m := small (base + k)
    let p := small (base + 8 + k)
    if bYOff = 0 then (m, p)
    else if o.y > y then
      (((m <<< bYOff) % 256) ||| (255 >>> (8 - bYOff)), (p <<< bYOff) % 256)
    else
      ((m >>> (8 - bYOff)) ||| ((255 <<< bYOff) % 256), p >>> (8 - bYOff))

/-- Body of the per-sprite loop of DrawSprites
(src/wip/oledMainDEMO.cpp lines 445-560): skip the sprite when it is
past the bottom of the page, above its top, or off the right edge;
otherwise blit its mask/pattern columns onto the row buffer at its x
position, clipped to the display width. -/
def drawSprite1 (big small : Nat → Nat) (y : Nat) (buf : Buf) (o : GFXObject) : Buf :=
  if o.y ≥ y + 8 then buf
  else if o.y + spriteSize o.bType ≤ y then buf
  else if o.x ≥ 128 then buf
  else blit buf o.x (spriteWidthEff o) (spriteMP big small y o)

/-- DrawSprites (src/wip/oledMainDEMO.cpp lines 440-561): composites the
sprite list onto the row buffer in increasing index order. -/
def drawSprites (big small : Nat → Nat) (y : Nat) (buf : Buf) (list : List GFXObject) : Buf :=
  list.foldl (drawSprite1 big small y) buf

/-- The 8x8 phantom sprite glyph of src/wip/oledMainDEMO.cpp lines
118-121: 8 mask bytes followed by 8 pattern bytes. -/
def ucSpritesList : List Nat :=
  [0x7C, 0xF6, 0x66, 0xFF, 0x7F, 0xF6, 0x66, 0xFC,
   0x7C, 0xF6, 0x66, 0xFF, 0x7F, 0xF6, 0x66, 0xFC]

/-- The phantom glyph as a byte stream. -/
def ucSpritesFun (i : Nat) : Nat := ucSpritesList.getD i 0

/-- The 16x16 sprite glyph of src/wip/oledMainDEMO.cpp lines 125-135:
32 mask bytes followed by 32 pattern bytes. -/
def ucBigSpritesList : List Nat :=
  [0xff, 0xff, 0x3e, 0x1c, 0x00, 0x00, 0x00, 0x00,
   0x00, 0x00, 0x00, 0x00, 0x00, 0x80, 0xfc, 0xfe,
   0xff, 0xff, 0x70, 0x20, 0x00, 0x00, 0x00, 0x00,
   0x00, 0x00, 0x00, 0x00, 0x00, 0x21, 0xe1, 0xff,
   0x00, 0x00, 0x00, 0x80, 0x41, 0x8b, 0x17, 0x7b,
   0x6d, 0xcd, 0xcd, 0xfb, 0x2b, 0x01, 0x00, 0x00,
   0x00, 0x00, 0x00, 0x07, 0x8d, 0xc9, 0xac, 0xad,
   0x20, 0x0a, 0xe8, 0xa2, 0x88, 0x0c, 0x00, 0x00]

/-- The 16x16 glyph as a byte stream. -/
def ucBigSpritesFun (i : Nat) : Nat := ucBigSpritesList.getD i 0

/-- Render-time shared state: the scan-line buffer, the externally
owned sprite list, and the 180-byte playfield. -/
structure RenderSt where
  buf : Buf
  sprites : List GFXObject
  playfield : Nat → Nat

/-- DrawSprites as a transformer of the shared state: its only stores
are into the row buffer pBuf (src/wip/oledMainDEMO.cpp lines 440-561
write only through d, which points into pBuf). -/
def drawSpritesS (big small : Nat → Nat) (y : Nat) (st : RenderSt) : RenderSt :=
  ⟨drawSprites big small y st.buf st.sprites, st.sprites, st.playfield⟩

/-- Tile map of src/unnamed/part_001 lines 126-157: 29 rows of 18 tile
indices. -/
def tileMapP1 : List (List Nat) :=
  [[0, 1, 0, 0, 0, 0, 0, 0, 0, 0, 0, 0, 0, 0, 0, 0, 1, 0],
   [0, 1, 1, 0, 0, 0, 0, 0, 0, 0, 0, 0, 0, 0, 0, 0, 1, 0],
   [0, 1, 1, 1, 0, 0, 0, 0, 0, 0, 0, 0, 0, 0, 0, 0, 1, 0],
   [0, 1, 1, 1, 1, 0, 0, 0, 0, 0, 0, 0, 0, 0, 0, 0, 1, 0],
   [0, 1, 1, 1, 1, 1, 0, 0, 0, 0, 0, 0, 0, 0, 0, 0, 1, 0],
   [0, 1, 1, 1, 1, 1, 1, 0, 0, 0, 0, 0, 0, 0, 0, 0, 1, 0],
   [0, 1, 1, 1, 1, 1, 1, 1, 0, 0, 0, 0, 0, 0, 0, 0, 1, 0],
   [0, 1, 1, 1, 1, 1, 1, 1, 1, 0, 0, 0, 0, 0, 0, 0, 1, 0],
   [0, 1, 1, 1, 1, 1, 1, 1, 1, 1, 0, 0, 0, 0, 0, 0, 1, 0],
   [0, 1, 1, 1, 1, 1, 1, 1, 1, 1, 1, 0, 0, 0, 0, 0, 1, 0],
   [0, 1, 1, 1, 1, 1, 1, 1, 1, 1, 1, 1, 0, 0, 0, 0, 1, 0],
   [0, 1, 1, 1, 1, 1, 1, 1, 1, 1, 1, 1, 1, 0, 0, 0, 1, 0],
   [0, 1, 1, 1, 1, 1, 1, 1, 1, 1, 1, 1, 1, 1, 0, 0, 1, 0],
   [0, 1, 1, 1, 1, 1, 1, 1, 1, 1, 1, 1, 1, 1, 1, 0, 1, 0],
   [0, 1, 1, 1, 1, 1, 1, 1, 1, 1, 1, 1, 1, 1, 1, 1, 1, 0],
   [0, 1, 1, 1, 1, 1, 1, 1, 1, 1, 1, 1, 1, 1, 1, 0, 1, 0],
   [0, 1, 1, 1, 1, 1, 1, 1, 1, 1, 1, 1, 1, 1, 0, 0, 1, 0],
   [0, 1, 1, 1, 1, 1, 1, 1, 1, 1, 1, 1, 1, 0, 0, 0, 1, 0],
   [0, 1, 1, 1, 1, 1, 1, 1, 1, 1, 1, 1, 0, 0, 0, 0, 1, 0],
   [0, 1, 1, 1, 1, 1, 1, 1, 1, 1, 1, 0, 0, 0, 0, 0, 1, 0],
   [0, 1, 1, 1, 1, 1, 1, 1, 1, 1, 0, 0, 0, 0, 0, 0, 1, 0],
   [0, 1, 1, 1, 1, 1, 1, 1, 1, 0, 0, 0, 0, 0, 0, 0, 1, 0],
   [0, 1, 1, 1, 1, 1, 1, 1, 0, 0, 0, 0, 0, 0, 0, 0, 1, 0],
   [0, 1, 1, 1, 1, 1, 1, 0, 0, 0, 0, 0, 0, 0, 0, 0, 1, 0],
   [0, 1, 1, 1, 1, 1, 0, 0, 0, 0, 0, 0, 0, 0, 0, 0, 1, 0],
   [0, 1, 1, 1, 1, 0, 0, 0, 0, 0, 0, 0, 0, 0, 0, 0, 1, 0],
   [0, 1, 1, 1, 0, 0, 0, 0, 0, 0, 0, 0, 0, 0, 0, 0, 1, 0],
   [0, 1, 1, 0, 0, 0, 0, 0, 0, 0, 0, 0, 0, 0, 0, 0, 1, 0],
   [0, 1, 0, 0, 0, 0, 0, 0, 0, 0, 0, 0, 0, 0, 0, 1, 1, 0]]

/-- Tile map lookup as a total function. -/
def tileMapP1Fun (r c : Nat) : Nat := (tileMapP1.getD r []).getD c 0

/-- Start index of the previous-row refresh window of adjustPlayField
(src/unnamed/part_001 lines 726, 734-735): currentRow is a byte, so the
sum is truncated mod 256 before the multiply, and the bit offset is
taken mod 180. -/
def adjPrevStart (sy : Nat) : Nat := ((((sy >>> 3) + 1) % 256) * 18) % 180

/-- Start index of the next-row refresh window of adjustPlayField
(src/unnamed/part_001 lines 726, 730-731). -/
def adjNextStart (sy : Nat) : Nat := (((((sy >>> 3) + 1) % 256) + 8) * 18) % 180

/-- Tile-map row copied into the previous-row window
(src/unnamed/part_001 line 736). -/
def adjPrevRow (sy : Nat) : Nat := (((sy >>> 3) + 1) % 256) % 29

/-- Tile-map row copied into the next-row window
(src/unnamed/part_001 line 732). -/
def adjNextRow (sy : Nat) : Nat := ((((sy >>> 3) + 1) % 256) + 8) % 29

/-- adjustPlayField (src/unnamed/part_001 lines 724-745): refreshes the
two 18-byte edge rows of bPlayfield from the tile map; each loop
iteration writes the d1 (next) byte then the d2 (prev) byte, and the
two 18-aligned windows never overlap, so the update is pointwise with
the prev window taking precedence. -/
def adjustPlayField (pf : Nat → Nat) (sy : Nat) : Nat → Nat := fun i =>
  if adjPrevStart sy ≤ i ∧ i < adjPrevStart sy + 18 then
    tileMapP1Fun (adjPrevRow sy) (i - adjPrevStart sy)
  else if adjNextStart sy ≤ i ∧ i < adjNextStart sy + 18 then
    tileMapP1Fun (adjNextRow sy) (i - adjNextStart sy)
  else pf i

/-- Playfield contents after DrawPlayfield of src/unnamed/part_001
(lines 505-626): the body calls adjustPlayField once (line 521) and
otherwise only reads bPlayfield, so the playfield component of the
state after the call is adjustPlayField of the one before. -/
def drawPlayfieldP1pf (pf : Nat → Nat) (sy : Nat) : Nat → Nat :=
  adjustPlayField pf sy

/-! ## Helper lemmas -/

theorem drawShiftedCharAux_length (s1 s2 : Nat → Nat) (v : Nat) :
    ∀ n i1 i2, (drawShiftedCharAux s1 s2 v i1 i2 n).length = n := by
  intro n
  induction n with
  | zero => intro i1 i2; rfl
  | succ n ih => intro i1 i2; simp [drawShiftedCharAux, ih]

theorem drawShiftedCharAux_getD (s1 s2 : Nat → Nat) (v : Nat) :
    ∀ n i1 i2 z, z < n →
      (drawShiftedCharAux s1 s2 v i1 i2 n).getD z 0 =
        shiftedByte (s1 (i1 + z)) (s2 (i2 + z)) v := by
  intro n
  induction n with
  | zero => intro i1 i2 z hz; omega
  | succ n ih =>
    intro i1 i2 z hz
    cases z with
    | zero => simp [drawShiftedCharAux]
    | succ z =>
      rw [drawShiftedCharAux, List.getD_cons_succ,
        show i1 + (z + 1) = i1 + 1 + z by omega,
        show i2 + (z + 1) = i2 + 1 + z by omega]
      exact ih (i1 + 1) (i2 + 1) z (by omega)

theorem shiftRight3_eq (n : Nat) : n >>> 3 = n / 8 := by
  rw [Nat.shiftRight_eq_div_pow]

theorem tyAt_eq_mod (sy : Nat) (h : sy < 160) :
    ∀ p, tyAt sy p = ((sy >>> 3) + p) % 10 := by
  have h3 : sy >>> 3 ≤ 19 := by rw [shiftRight3_eq]; omega
  intro p
  induction p with
  | zero => simp only [tyAt, wrap10]; split <;> omega
  | succ p ih => simp only [tyAt, wrap10, ih]; split <;> omega

theorem txA_lt (sx : Nat) (h : sx < 256) : ∀ x, txA sx x < 18 := by
  have h3 : sx >>> 3 ≤ 31 := by rw [shiftRight3_eq]; omega
  intro x
  induction x with
  | zero => simp only [txA, wrap18]; split <;> omega
  | succ x ih => simp only [txA, wrap18]; split <;> omega

/-! ## Claim theorems about DrawShiftedChar and the playfield rows -/

/-- Claim C1: for every vertical offset v in 1..7 and every pair of
source byte streams, DrawShiftedChar writes exactly 8 - bXOff bytes,
the byte at position z being built from the z-th byte of each source as
the top byte shifted right by v ORed with the bottom byte shifted left
by 8 - v and truncated to 8 bits. -/
theorem drawShiftedChar_spec (s1 s2 : Nat → Nat) (bXOff v : Nat)
    (hv1 : 1 ≤ v) (hv7 : v ≤ 7) :
    (drawShiftedChar s1 s2 bXOff v).length = 8 - bXOff ∧
    ∀ z, z < 8 - bXOff →
      (drawShiftedChar s1 s2 bXOff v).getD z 0 =
        ((s1 z) >>> v) ||| (((s2 z) <<< (8 - v)) % 256) := by
  constructor
  · exact drawShiftedCharAux_length s1 s2 v (8 - bXOff) 0 0
  · intro z hz
    have h := drawShiftedCharAux_getD s1 s2 v (8 - bXOff) 0 0 z hz
    simpa [shiftedByte, drawShiftedChar] using h

/-- Witness for C1 at v = 1, bXOff = 3, constant sources 85 and 170. -/
theorem drawShiftedChar_spec_witness :
    (drawShiftedChar (fun _ => 85) (fun _ => 170) 3 1).length = 5 ∧
    (drawShiftedChar (fun _ => 85) (fun _ => 170) 3 1).getD 0 0 = 42 := by
  have h := drawShiftedChar_spec (fun _ => 85) (fun _ => 170) 3 1
    (by decide) (by decide)
  exact ⟨h.1, by rw [h.2 0 (by decide)]; decide⟩

/-- Claim C7 counterexample: compositing the uniform fill 0x55 with
itself at vertical offset 1 yields 0xAA, not 0x55. -/
theorem shiftedByte_selfFill_cex :
    shiftedByte 85 85 1 = 170 ∧ ¬ shiftedByte 85 85 1 = 85 := by decide

/-- Claim C7 (amended): for every v in 1..7 the solid fills 0x00 and
0xFF are reproduced unchanged; the stripe fills 0x55 and 0xAA are
reproduced unchanged exactly when v is even, and are exchanged with
each other when v is odd (the compositor rotates the byte). -/
theorem shiftedByte_selfFill (v : Nat) (hv1 : 1 ≤ v) (hv7 : v ≤ 7) :
    (shiftedByte 0 0 v = 0 ∧ shiftedByte 255 255 v = 255) ∧
    (v % 2 = 0 → shiftedByte 85 85 v = 85 ∧ shiftedByte 170 170 v = 170) ∧
    (v % 2 = 1 → shiftedByte 85 85 v = 170 ∧ shiftedByte 170 170 v = 85) := by
  interval_cases v <;> exact (by decide)

/-- Witness for the amended C7 at v = 2. -/
theorem shiftedByte_selfFill_witness :
    shiftedByte 255 255 2 = 255 ∧ shiftedByte 85 85 2 = 85 := by
  have h := shiftedByte_selfFill 2 (by decide) (by decide)
  exact ⟨h.1.2, (h.2.1 (by decide)).1⟩

/-- Claim C2 counterexample: at bScrollY = 160 the single conditional
subtraction does not fully wrap the starting row 20, so page 0 uses
tile row 10 instead of (160 >> 3) mod 10 = 0, and the first playfield
index read is 180, past the end of the 180-byte array. -/
theorem drawPlayfield_rowIndex_cex :
    tyAt 160 0 = 10 ∧
    ¬ tyAt 160 0 = ((160 >>> 3) + 0) % 10 ∧
    pfIdx 0 160 0 0 = 180 := by decide

/-- Claim C2 (amended): for every bScrollY below 160 (so the starting
row bScrollY >> 3 is at most 19 and one subtraction suffices) and every
page p, the tile row DrawPlayfield uses equals ((bScrollY >> 3) + p)
mod 10, and both playfield indices read for any column cell are below
180. For bScrollY in 160..255 the single subtraction leaves the first
pages at rows at or past 10, and the indices go out of bounds. -/
theorem drawPlayfield_rowIndex (sx sy p x : Nat)
    (hsx : sx < 256) (hsy : sy < 160) :
    tyAt sy p = ((sy >>> 3) + p) % 10 ∧
    pfIdx sx sy p x < 180 ∧
    pfIdx2 sx sy p x < 180 := by
  have h1 := tyAt_eq_mod sy hsy p
  have h2 := txA_lt sx hsx x
  have h3 : tyAt sy p ≤ 9 := by rw [h1]; omega
  refine ⟨h1, ?_, ?_⟩
  · unfold pfIdx; omega
  · unfold pfIdx2 pfIdx; split <;> omega

/-- Witness for the amended C2 at bScrollX = 17, bScrollY = 159,
page 7, cell 15. -/
theorem drawPlayfield_rowIndex_witness :
    tyAt 159 7 = ((159 >>> 3) + 7) % 10 ∧
    pfIdx 17 159 7 15 < 180 ∧
    pfIdx2 17 159 7 15 < 180 :=
  drawPlayfield_rowIndex 17 159 7 15 (by decide) (by decide)

theorem drawShiftedCharAux_zero (s1 s2 : Nat → Nat) :
    ∀ n i1 i2, drawShiftedCharAux s1 s2 0 i1 i2 n =
      (List.range n).map (fun z => s1 (i1 + z)) := by
  intro n
  induction n with
  | zero => intro i1 i2; rfl
  | succ n ih =>
    intro i1 i2
    have hh : shiftedByte (s1 i1) (s2 i2) 0 = s1 i1 := by
      simp [shiftedByte, Nat.shiftLeft_eq, Nat.mul_mod_left]
    rw [drawShiftedCharAux, ih (i1 + 1) (i2 + 1), hh, List.range_succ_eq_map]
    simp only [List.map_cons, List.map_map, Nat.add_zero, List.cons.injEq, true_and]
    exact List.map_congr_left (fun z _ => congrArg s1 (by omega))

theorem rowShiftCell_zero (pf font : Nat → Nat) (sx sy p x : Nat) :
    rowShiftCell pf font sx sy p 0 x = rowDirectCell pf font sx sy p x := by
  unfold rowShiftCell rowDirectCell drawShiftedChar
  rw [drawShiftedCharAux_zero]
  exact List.map_congr_left (fun z _ => congrArg font (by omega))

theorem rowShiftTail_zero (pf font : Nat → Nat) (sx sy p : Nat) :
    rowShiftTail pf font sx sy p 0 = rowDirectTail pf font sx sy p := by
  have hm : sx % 8 < 8 := Nat.mod_lt _ (by norm_num)
  unfold rowShiftTail rowDirectTail drawShiftedChar
  split
  · rfl
  · rw [drawShiftedCharAux_zero, show 8 - (8 - sx % 8) = sx % 8 by omega]
    exact List.map_congr_left (fun z _ => congrArg font (by omega))

/-- Claim C6: when the vertical offset is zero, the direct byte-copy
path of DrawPlayfield produces exactly the same row as the shifted path
run with bYOff = 0 on the same tile sources: at offset 0 the 8-bit left
shift by 8 truncates every bottom-source byte to zero, so each
composited byte degenerates to the top-source byte the memcpy copies. -/
theorem drawPlayfield_directPath_eq (pf font : Nat → Nat) (sx sy p : Nat) :
    rowShift pf font sx sy p 0 = rowDirect pf font sx sy p := by
  unfold rowShift rowDirect rowShiftLoop rowDirectLoop
  rw [rowShiftTail_zero]
  congr 2
  exact List.map_congr_left (fun x _ => rowShiftCell_zero pf font sx sy p x)

theorem rowShiftCell_length (pf font : Nat → Nat) (sx sy p v x : Nat) :
    (rowShiftCell pf font sx sy p v x).length = 8 - cellXOff sx x :=
  drawShiftedCharAux_length _ _ v (8 - cellXOff sx x) 0 0

set_option maxRecDepth 4000 in
/-- Claim C9 counterexample: with bScrollX = 1 the 16-cell column loop
of the shifted path writes only 127 bytes, so the destination cursor
does not reach the end of the 128-byte row buffer and the live guard of
the fallback path (present, not commented out, in
src/wip/oledMainDEMO.cpp lines 606-620 and
src/games/cuboRebotando.cpp lines 962-976) fires. -/
theorem rowShift_cursor_cex :
    (rowShiftLoop (fun _ => 0) (fun _ => 0) 1 0 0 1).length = 127 ∧
    ¬ (rowShiftLoop (fun _ => 0) (fun _ => 0) 1 0 0 1).length = 128 := by decide

/-- Claim C9 (amended): the fallback path is commented out only in
src/unnamed/part_001 (and in the zero-offset branch of
src/unnamed/part_005); in the other sketches it is live, and it runs
exactly when bScrollX mod 8 is nonzero: after the 16-cell loop the
destination cursor equals 128 - (bScrollX mod 8), which equals the end
of the row buffer if and only if bScrollX is a multiple of 8, and the
fallback then writes the remaining bScrollX mod 8 bytes, completing the
128-byte row. -/
theorem rowShift_cursor (pf font : Nat → Nat) (sx sy p v : Nat) :
    (rowShiftLoop pf font sx sy p v).length = 128 - sx % 8 ∧
    ((rowShiftLoop pf font sx sy p v).length = 128 ↔ sx % 8 = 0) ∧
    (rowShift pf font sx sy p v).length = 128 := by
  have hm : sx % 8 < 8 := Nat.mod_lt _ (by norm_num)
  have hlen : (rowShiftLoop pf font sx sy p v).length = 128 - sx % 8 := by
    unfold rowShiftLoop
    rw [List.length_flatten, List.map_map]
    simp [Function.comp, rowShiftCell_length, List.range_succ, cellXOff]
    omega
  refine ⟨hlen, by rw [hlen]; omega, ?_⟩
  have htail : (rowShiftTail pf font sx sy p v).length = sx % 8 := by
    unfold rowShiftTail
    split
    · simp [*]
    · rw [drawShiftedChar, drawShiftedCharAux_length]; omega
  rw [rowShift, List.length_append, hlen, htail]
  omega

/-! ## Helper lemmas about the sprite blitter -/

theorem blit_at (buf : Buf) (x0 w : Nat) (mp : Nat → Nat × Nat) (j : Nat)
    (h1 : x0 ≤ j) (h2 : j < x0 + w) :
    blit buf x0 w mp j = compositeByte (buf j) (mp (j - x0)).1 (mp (j - x0)).2 := by
  simp [blit, h1, h2]

theorem blit_out (buf : Buf) (x0 w : Nat) (mp : Nat → Nat × Nat) (j : Nat)
    (h : j < x0 ∨ x0 + w ≤ j) :
    blit buf x0 w mp j = buf j := by
  have hno : ¬ (x0 ≤ j ∧ j < x0 + w) := by omega
  simp [blit, hno]

theorem drawSprite1_skip (big small : Nat → Nat) (y : Nat) (buf : Buf)
    (o : GFXObject)
    (h : o.y ≥ y + 8 ∨ o.y + spriteSize o.bType ≤ y ∨ o.x ≥ 128) :
    drawSprite1 big small y buf o = buf := by
  unfold drawSprite1
  split_ifs <;> first | rfl | omega

theorem drawSprite1_draw (big small : Nat → Nat) (y : Nat) (buf : Buf)
    (o : GFXObject)
    (h1 : o.y < y + 8) (h2 : y < o.y + spriteSize o.bType) (h3 : o.x < 128) :
    drawSprite1 big small y buf o =
      blit buf o.x (spriteWidthEff o) (spriteMP big small y o) := by
  unfold drawSprite1
  split_ifs <;> first | omega | rfl

theorem drawSprite1_out (big small : Nat → Nat) (y : Nat) (buf : Buf)
    (o : GFXObject) (j : Nat) (hj : 128 ≤ j) :
    drawSprite1 big small y buf o j = buf j := by
  unfold drawSprite1
  split_ifs with g1 g2 g3
  · rfl
  · rfl
  · rfl
  · refine blit_out buf o.x (spriteWidthEff o) _ j (Or.inr ?_)
    unfold spriteWidthEff
    split <;> omega

theorem drawSprites_out (big small : Nat → Nat) (y : Nat) :
    ∀ (list : List GFXObject) (buf : Buf) (j : Nat), 128 ≤ j →
      drawSprites big small y buf list j = buf j := by
  intro list
  induction list with
  | nil => intro buf j hj; rfl
  | cons a l ih =>
    intro buf j hj
    show drawSprites big small y (drawSprite1 big small y buf a) l j = buf j
    rw [ih (drawSprite1 big small y buf a) j hj,
      drawSprite1_out big small y buf a j hj]

/-! ## Claim theorems about DrawSprites -/

/-- Claim C3: a sprite is skipped, leaving the buffer unmodified,
exactly when one of the three visibility tests fails; when all three
hold the sprite is blitted at its x position. In particular the sprite
at y = 16 leaves any buffer unmodified at page 0 and changes the buffer
at page 2 (column 0 of an all-0xFF buffer becomes 0x7C = 124). -/
theorem drawSprites_visibility (big small : Nat → Nat) (y : Nat) (buf : Buf)
    (o : GFXObject) :
    (o.y ≥ y + 8 ∨ o.y + spriteSize o.bType ≤ y ∨ o.x ≥ 128 →
      drawSprite1 big small y buf o = buf) ∧
    (o.y < y + 8 → y < o.y + spriteSize o.bType → o.x < 128 →
      drawSprite1 big small y buf o =
        blit buf o.x (spriteWidthEff o) (spriteMP big small y o)) ∧
    (∀ b : Buf, drawSprite1 ucBigSpritesFun ucSpritesFun 0 b ⟨0, 16, 0⟩ = b) ∧
    drawSprite1 ucBigSpritesFun ucSpritesFun 16 (fun _ => 255) ⟨0, 16, 0⟩ 0 = 124 := by
  refine ⟨drawSprite1_skip big small y buf o,
    drawSprite1_draw big small y buf o, ?_, by decide⟩
  intro b
  exact drawSprite1_skip ucBigSpritesFun ucSpritesFun 0 b ⟨0, 16, 0⟩
    (Or.inl (by decide))

/-- Claim C4: a visible byte-aligned sprite updates each covered
destination byte to (dest AND mask) OR pattern, where mask and pattern
are the raw glyph bytes of the column (for a 16x16 sprite, of the half
selected by the page; for an 8x8 sprite, the mask byte at index*16+k
and the pattern byte at index*16+8+k); and the concrete composite of
background 0b11110000 with mask 0b00001111 and pattern 0b00000101 is
0b00000101. -/
theorem drawSprite1_aligned (big small : Nat → Nat) (y : Nat) (buf : Buf)
    (o : GFXObject) (k : Nat)
    (hal : o.y % 8 = 0)
    (h1 : o.y < y + 8) (h2 : y < o.y + spriteSize o.bType) (h3 : o.x < 128)
    (hk : k < spriteWidthEff o) :
    (o.bType &&& 128 ≠ 0 →
      drawSprite1 big small y buf o (o.x + k) =
        compositeByte (buf (o.x + k))
          (big ((o.bType &&& 127) * 64 + (if o.y + 8 ≤ y then 16 else 0) + k))
          (big ((o.bType &&& 127) * 64 + (if o.y + 8 ≤ y then 16 else 0) + 32 + k))) ∧
    (o.bType &&& 128 = 0 →
      drawSprite1 big small y buf o (o.x + k) =
        compositeByte (buf (o.x + k))
          (small ((o.bType &&& 127) * 16 + k))
          (small ((o.bType &&& 127) * 16 + 8 + k))) ∧
    compositeByte 240 15 5 = 5 := by
  have hd := drawSprite1_draw big small y buf o h1 h2 h3
  have hb := blit_at buf o.x (spriteWidthEff o) (spriteMP big small y o)
    (o.x + k) (by omega) (by omega)
  have hs : o.x + k - o.x = k := by omega
  rw [hs] at hb
  refine ⟨?_, ?_, by decide⟩
  · intro hbig
    have hmp : spriteMP big small y o k =
        ((big ((o.bType &&& 127) * 64 + (if o.y + 8 ≤ y then 16 else 0) + k)),
         (big ((o.bType &&& 127) * 64 + (if o.y + 8 ≤ y then 16 else 0) + 32 + k))) := by
      simp [spriteMP, hal, hbig]
    rw [hd, hb, hmp]
  · intro hsmall
    have hmp : spriteMP big small y o k =
        ((small ((o.bType &&& 127) * 16 + k)),
         (small ((o.bType &&& 127) * 16 + 8 + k))) := by
      simp [spriteMP, hal, hsmall]
    rw [hd, hb, hmp]

/-- Witness for C4: the 8x8 phantom sprite at (0, 16), byte aligned on
page 2, composites column 0 of an all-0xFF buffer to 124. -/
theorem drawSprite1_aligned_witness :
    drawSprite1 ucBigSpritesFun ucSpritesFun 16 (fun _ => 255) ⟨0, 16, 0⟩ (0 + 0) = 124 := by
  have h := (drawSprite1_aligned ucBigSpritesFun ucSpritesFun 16 (fun _ => 255)
    ⟨0, 16, 0⟩ 0 (by decide) (by decide) (by decide) (by decide) (by decide)).2.1
    (by decide)
  rw [h]; decide

/-- Claim C5: DrawSprites never writes at or past column 128: the blit
width of a visible sprite is min(spriteWidth, 128 - x), so the whole
sprite list leaves every byte at index 128 or beyond unchanged; in
particular a 16-wide sprite at x = 124 has effective width 4 and leaves
every byte outside columns 124..127 unchanged. -/
theorem drawSprites_bounds :
    (∀ (big small : Nat → Nat) (y : Nat) (list : List GFXObject) (buf : Buf)
      (j : Nat), 128 ≤ j → drawSprites big small y buf list j = buf j) ∧
    (∀ o : GFXObject, o.x < 128 →
      spriteWidthEff o = min (spriteSize o.bType) (128 - o.x)) ∧
    (∀ (big small : Nat → Nat) (y : Nat) (buf : Buf) (j : Nat),
      j < 124 ∨ 128 ≤ j →
      drawSprite1 big small y buf ⟨124, 20, 128⟩ j = buf j) ∧
    spriteWidthEff ⟨124, 20, 128⟩ = 4 := by
  refine ⟨fun big small y list buf j hj => drawSprites_out big small y list buf j hj,
    ?_, ?_, by decide⟩
  · intro o h
    unfold spriteWidthEff
    split <;> omega
  · intro big small y buf j hj
    have hw : spriteWidthEff ⟨124, 20, 128⟩ = 4 := by decide
    unfold drawSprite1
    split_ifs <;> try rfl
    exact blit_out buf 124 (spriteWidthEff ⟨124, 20, 128⟩) _ j (by omega)

/-- Claim C10: DrawSprites composites the list in increasing index
order: with two visible sprites covering the same buffer byte, the
final byte is the first sprite composite applied first and the second
applied on top; and where the later sprite is opaque (mask byte 0) its
pattern fully overwrites whatever the earlier sprite produced. -/
theorem drawSprites_painter (big small : Nat → Nat) (y : Nat) (buf : Buf)
    (a b : GFXObject) (j : Nat)
    (ha1 : a.y < y + 8) (ha2 : y < a.y + spriteSize a.bType) (ha3 : a.x < 128)
    (hb1 : b.y < y + 8) (hb2 : y < b.y + spriteSize b.bType) (hb3 : b.x < 128)
    (hja1 : a.x ≤ j) (hja2 : j < a.x + spriteWidthEff a)
    (hjb1 : b.x ≤ j) (hjb2 : j < b.x + spriteWidthEff b) :
    drawSprites big small y buf [a, b] j =
      compositeByte
        (compositeByte (buf j) (spriteMP big small y a (j - a.x)).1
          (spriteMP big small y a (j - a.x)).2)
        (spriteMP big small y b (j - b.x)).1 (spriteMP big small y b (j - b.x)).2 ∧
    (∀ d p2, compositeByte d 0 p2 = p2) := by
  constructor
  · show drawSprite1 big small y (drawSprite1 big small y buf a) b j = _
    rw [drawSprite1_draw big small y _ b hb1 hb2 hb3,
      blit_at _ _ _ _ _ hjb1 hjb2,
      drawSprite1_draw big small y buf a ha1 ha2 ha3,
      blit_at _ _ _ _ _ hja1 hja2]
  · intro d p2
    simp [compositeByte]

/-- Witness for C10: two phantom sprites at x = 0 and x = 4 on page 2,
evaluated at the overlapping column 4 over an all-0xFF buffer. -/
theorem drawSprites_painter_witness :
    drawSprites ucBigSpritesFun ucSpritesFun 16 (fun _ => 255)
      [⟨0, 16, 0⟩, ⟨4, 16, 0⟩] 4 = 124 := by
  have h := (drawSprites_painter ucBigSpritesFun ucSpritesFun 16 (fun _ => 255)
    ⟨0, 16, 0⟩ ⟨4, 16, 0⟩ 4 (by decide) (by decide) (by decide) (by decide)
    (by decide) (by decide) (by decide) (by decide) (by decide) (by decide)).1
  rw [h]; decide

/-- Claim C8 counterexample: DrawPlayfield of src/unnamed/part_001 does
mutate the playfield: starting from an all-zero bPlayfield with
iScrollY = 0, after the call byte 19 holds tile index 1 (adjustPlayField
copies tile-map row 1 into bytes 18..35). -/
theorem drawPlayfieldP1_mutates_cex :
    (fun _ => (0 : Nat)) 19 = 0 ∧ drawPlayfieldP1pf (fun _ => 0) 0 19 = 1 := by
  decide

/-- Claim C8 (amended): DrawSprites mutates neither the sprite list nor
the playfield (its only stores are into the row buffer), and the
DrawPlayfield of src/unnamed/part_001 mutates the playfield only inside
the two 18-byte edge-row windows refreshed by adjustPlayField; every
byte outside those windows is left unchanged. The scroll arguments are
passed by value and are never written. -/
theorem renderCore_frame :
    (∀ (big small : Nat → Nat) (y : Nat) (st : RenderSt),
      (drawSpritesS big small y st).sprites = st.sprites ∧
      (drawSpritesS big small y st).playfield = st.playfield) ∧
    (∀ (pf : Nat → Nat) (sy i : Nat),
      (i < adjPrevStart sy ∨ adjPrevStart sy + 18 ≤ i) →
      (i < adjNextStart sy ∨ adjNextStart sy + 18 ≤ i) →
      drawPlayfieldP1pf pf sy i = pf i) := by
  refine ⟨fun big small y st => ⟨rfl, rfl⟩, ?_⟩
  intro pf sy i h1 h2
  have g1 : ¬ (adjPrevStart sy ≤ i ∧ i < adjPrevStart sy + 18) := by omega
  have g2 : ¬ (adjNextStart sy ≤ i ∧ i < adjNextStart sy + 18) := by omega
  simp [drawPlayfieldP1pf, adjustPlayField, g1, g2]
